import Mathlib

/-!
Shallow embedding of the mapTiles repository, used to check its
natural-language specification.  The embedded pieces are: the composite
OSM feature-id decoding of the app viewer (`MapView.tsx`), the tile-source
configuration module of the app viewer (`config.ts`), the endpoint
selection, draw-order sorting, label-priority application, source
filtering and cleanup logic of the legacy viewer (`2-viewer/src/js/config.js`),
and the terrain-download and merge wrapper shell scripts.
-/

namespace MapTiles

/-! ### Composite OSM feature identifiers (`MapView.tsx`) -/

/-- Decoding of the low 44 bits of a packed OSM feature identifier:
`featureIdToOsmId` in `MapView.tsx` computes `BigInt(raw) & ((1n << 44n) - 1n)`. -/
def featureIdToOsmId (raw : Nat) : Nat :=
  raw &&& ((1 <<< 44) - 1)

/-- Classification of a packed OSM feature identifier by the 2-bit type code
held in bits 44 and 45: `featureIdToOsmType` in `MapView.tsx` computes
`(BigInt(i) >> 44n) & 3n` and maps 1, 2, 3 to node, way, relation. -/
def featureIdToOsmType (i : Nat) : String :=
  let t := (i >>> 44) &&& 3
  if t = 1 then "node"
  else if t = 2 then "way"
  else if t = 3 then "relation"
  else "not_osm"

/-- Packing of a type code and a base entity id, `(t << 44) | n`, as the
composite-id scheme describes it. -/
def osmEncode (t n : Nat) : Nat := (t <<< 44) ||| n

theorem osmEncode_eq {n : Nat} (t : Nat) (hn : n < 2 ^ 44) :
    osmEncode t n = 2 ^ 44 * t + n := by
  unfold osmEncode
  calc (t <<< 44) ||| n = t * 2 ^ 44 ||| n := by rw [Nat.shiftLeft_eq]
    _ = 2 ^ 44 * t ||| n := by rw [Nat.mul_comm]
    _ = 2 ^ 44 * t + n := (Nat.mul_add_lt_is_or hn t).symm

theorem featureIdToOsmId_osmEncode {n : Nat} (t : Nat) (hn : n < 2 ^ 44) :
    featureIdToOsmId (osmEncode t n) = n := by
  unfold featureIdToOsmId
  rw [osmEncode_eq t hn]
  have h1 : (1 : Nat) <<< 44 = 2 ^ 44 := by rw [Nat.shiftLeft_eq, Nat.one_mul]
  rw [h1, Nat.and_pow_two_sub_one_eq_mod, Nat.mul_add_mod, Nat.mod_eq_of_lt hn]

theorem osmEncode_typeBits {n : Nat} (t : Nat) (hn : n < 2 ^ 44) (ht : t < 4) :
    ((osmEncode t n) >>> 44) &&& 3 = t := by
  rw [osmEncode_eq t hn, Nat.shiftRight_eq_div_pow,
    Nat.mul_add_div (Nat.pos_pow_of_pos 44 (by norm_num)),
    Nat.div_eq_of_lt hn, Nat.add_zero]
  have h3 : (3 : Nat) = 2 ^ 2 - 1 := by norm_num
  rw [h3, Nat.and_pow_two_sub_one_eq_mod, Nat.mod_eq_of_lt (by omega)]

/-- C1: for every base OSM entity id `n` below `2 ^ 44` and every type code
`t` in `{1, 2, 3}`, decoding the packed identifier `(t <<< 44) ||| n` with
`featureIdToOsmId` recovers `n`, and `featureIdToOsmType` classifies it as
node, way or relation respectively; any identifier whose bits 44 and 45 are
zero is classified `"not_osm"`. -/
theorem osm_composite_id_roundtrip :
    (∀ n t : Nat, n < 2 ^ 44 → (t = 1 ∨ t = 2 ∨ t = 3) →
      featureIdToOsmId (osmEncode t n) = n ∧
      featureIdToOsmType (osmEncode t n) =
        (if t = 1 then "node" else if t = 2 then "way" else "relation")) ∧
    (∀ i : Nat, (i >>> 44) &&& 3 = 0 → featureIdToOsmType i = "not_osm") := by
  constructor
  · intro n t hn ht
    refine ⟨featureIdToOsmId_osmEncode t hn, ?_⟩
    have hbits := osmEncode_typeBits t hn (by omega)
    unfold featureIdToOsmType
    rcases ht with rfl | rfl | rfl <;> simp [hbits]
  · intro i hi
    unfold featureIdToOsmType
    simp [hi]

/-- Witness for C1 at the concrete input `t = 2`, `n = 123`, and at the
identifier `7`, whose bits 44 and 45 are zero. -/
theorem osm_composite_id_roundtrip_witness :
    (featureIdToOsmId (osmEncode 2 123) = 123 ∧
      featureIdToOsmType (osmEncode 2 123) = "way") ∧
    featureIdToOsmType 7 = "not_osm" := by
  refine ⟨?_, osm_composite_id_roundtrip.2 7 (by decide)⟩
  have h := osm_composite_id_roundtrip.1 123 2 (by norm_num) (Or.inr (Or.inl rfl))
  simpa using h

/-! ### Tile source configuration of the app viewer (`config.ts`) -/

/-- Archive source record of `config.ts`: archive name, attribution and an
optional max zoom. -/
structure ArchiveSource where
  archiveName : String
  attribution : String
  maxzoom : Option Nat
deriving Repr, DecidableEq

/-- Fixed record of the three logical sources of `config.ts`. -/
structure TileSources where
  protomaps : ArchiveSource
  overture : ArchiveSource
  grid3 : ArchiveSource
deriving Repr, DecidableEq

/-- Tile configuration record of `config.ts` (`TileConfig` interface). -/
structure AppTileConfig where
  cloudflareWorkerUrl : String
  sources : TileSources
deriving Repr, DecidableEq

/-- Property access `config.sources[sourceName]` for a runtime string key:
defined keys are exactly the three recognized source names; any other name
yields `undefined`, modelled as `none`. -/
def lookupSource (s : TileSources) (name : String) : Option ArchiveSource :=
  if name = "protomaps" then some s.protomaps
  else if name = "overture" then some s.overture
  else if name = "grid3" then some s.grid3
  else none

/-- Result shape of `getTileSourceConfig` in `config.ts`. -/
structure TileSourceResult where
  tiles : List String
  attribution : String
  maxzoom : Option Nat
deriving Repr, DecidableEq

/-- Embedding of `getTileSourceConfig` in `config.ts`: it throws when the
worker URL is empty, throws when the source name is unknown, and otherwise
returns one URL template `{workerUrl}/{archiveName}/{z}/{x}/{y}.mvt` with the
source's attribution; the spread `...(source.maxzoom && {maxzoom})` keeps the
max zoom only when it is truthy (present and nonzero). -/
def getTileSourceConfig (config : AppTileConfig) (sourceName : String) :
    Except String TileSourceResult :=
  if config.cloudflareWorkerUrl = "" then
    Except.error "VITE_CLOUDFLARE_WORKER_URL must be set"
  else
    match lookupSource config.sources sourceName with
    | none => Except.error ("Source not found in configuration: " ++ sourceName)
    | some source =>
        Except.ok
          { tiles := [config.cloudflareWorkerUrl ++ "/" ++ source.archiveName
              ++ "/{z}/{x}/{y}.mvt"]
            attribution := source.attribution
            maxzoom := match source.maxzoom with
              | some m => if m ≠ 0 then some m else none
              | none => none }

/-- Semantics of `getEnvVar` in `config.ts`: `import.meta.env[key] ||
defaultValue`, where an absent or empty environment value is falsy. -/
def getEnvVar (v : Option String) (dflt : String) : String :=
  match v with
  | some s => if s = "" then dflt else s
  | none => dflt

/-- Attribution literal configured for the protomaps source in `config.ts`. -/
def protomapsAttribution : String :=
  "<a href=\"https://github.com/protomaps/basemaps\">Protomaps</a> Â© <a href=\"https://openstreetmap.org\">OpenStreetMap</a>"

/-- Attribution literal configured for the overture source in `config.ts`. -/
def overtureAttribution : String :=
  "<a href=\"https://overturemaps.org\">Overture Maps Foundation</a>"

/-- Attribution literal configured for the grid3 source in `config.ts`. -/
def grid3Attribution : String :=
  "<a href=\"https://grid3.org\">GRID3</a>"

/-- Embedding of `APP_CONFIG.tiles` in `config.ts`, as a function of the four
recognized environment overrides; attributions and max zooms are literals. -/
def mkAppConfigTiles (envWorker envProtomaps envOverture envGrid3 : Option String) :
    AppTileConfig :=
  { cloudflareWorkerUrl :=
      getEnvVar envWorker "https://pmtiles-cloudflare.mheaton-945.workers.dev"
    sources :=
      { protomaps :=
          { archiveName := getEnvVar envProtomaps "global"
            attribution := protomapsAttribution
            maxzoom := some 22 }
        overture :=
          { archiveName := getEnvVar envOverture "buildings"
            attribution := overtureAttribution
            maxzoom := some 14 }
        grid3 :=
          { archiveName := getEnvVar envGrid3 "grid3"
            attribution := grid3Attribution
            maxzoom := some 15 } } }

/-- Substring containment on strings, used to state that a URL template
carries the tile-coordinate placeholders. -/
def ContainsSub (s sub : String) : Prop := ∃ a b, s = a ++ sub ++ b

theorem getEnvVar_ne_empty (v : Option String) {dflt : String} (h : dflt ≠ "") :
    getEnvVar v dflt ≠ "" := by
  unfold getEnvVar
  match v with
  | none => exact h
  | some s =>
      by_cases hs : s = "" <;> simp [hs, h]

theorem template_containsSub (pre name : String) :
    ContainsSub (pre ++ "/" ++ name ++ "/{z}/{x}/{y}.mvt")
        "{z}" ∧
      ContainsSub (pre ++ "/" ++ name ++ "/{z}/{x}/{y}.mvt") "{x}" ∧
      ContainsSub (pre ++ "/" ++ name ++ "/{z}/{x}/{y}.mvt") "{y}" := by
  refine ⟨⟨pre ++ "/" ++ name ++ "/", "/{x}/{y}.mvt", ?_⟩,
    ⟨pre ++ "/" ++ name ++ "/{z}/", "/{y}.mvt", ?_⟩,
    ⟨pre ++ "/" ++ name ++ "/{z}/{x}/", ".mvt", ?_⟩⟩ <;>
    simp only [String.append_assoc] <;> rfl

theorem getTileSourceConfig_eq_ok {cfg : AppTileConfig} {name : String}
    {src : ArchiveSource} (hw : cfg.cloudflareWorkerUrl ≠ "")
    (hl : lookupSource cfg.sources name = some src) :
    getTileSourceConfig cfg name = Except.ok
      { tiles := [cfg.cloudflareWorkerUrl ++ "/" ++ src.archiveName
          ++ "/{z}/{x}/{y}.mvt"]
        attribution := src.attribution
        maxzoom := match src.maxzoom with
          | some m => if m ≠ 0 then some m else none
          | none => none } := by
  unfold getTileSourceConfig
  rw [if_neg hw, hl]

/-- C2: for each recognized source name, `getTileSourceConfig` on the
configuration built by `config.ts` succeeds with exactly one tile URL
template `{workerUrl}/{archiveName}/{z}/{x}/{y}.mvt` (hence containing the
placeholders `{z}`, `{x}`, `{y}`), the source's configured attribution
verbatim, and its configured max zoom; it errors whenever the worker URL
is empty, and errors on every unrecognized source name. -/
theorem getTileSourceConfig_complete :
    (∀ envWorker envProtomaps envOverture envGrid3 name,
      (name = "protomaps" ∨ name = "overture" ∨ name = "grid3") →
      ∃ r src,
        lookupSource (mkAppConfigTiles envWorker envProtomaps envOverture
          envGrid3).sources name = some src ∧
        getTileSourceConfig (mkAppConfigTiles envWorker envProtomaps envOverture
          envGrid3) name = Except.ok r ∧
        r.tiles = [(mkAppConfigTiles envWorker envProtomaps envOverture
          envGrid3).cloudflareWorkerUrl ++ "/" ++ src.archiveName
          ++ "/{z}/{x}/{y}.mvt"] ∧
        (∀ u ∈ r.tiles, ContainsSub u "{z}" ∧ ContainsSub u "{x}" ∧
          ContainsSub u "{y}") ∧
        r.attribution = src.attribution ∧
        (∀ m, src.maxzoom = some m → r.maxzoom = some m)) ∧
    (∀ cfg name, cfg.cloudflareWorkerUrl = "" →
      ∃ e, getTileSourceConfig cfg name = Except.error e) ∧
    (∀ cfg name, name ≠ "protomaps" → name ≠ "overture" → name ≠ "grid3" →
      ∃ e, getTileSourceConfig cfg name = Except.error e) := by
  refine ⟨?_, ?_, ?_⟩
  · intro envWorker envProtomaps envOverture envGrid3 name hname
    have hw : (mkAppConfigTiles envWorker envProtomaps envOverture
        envGrid3).cloudflareWorkerUrl ≠ "" :=
      getEnvVar_ne_empty envWorker (by decide)
    rcases hname with rfl | rfl | rfl <;>
      [(refine ⟨_, (mkAppConfigTiles envWorker envProtomaps envOverture
          envGrid3).sources.protomaps, rfl,
          getTileSourceConfig_eq_ok hw rfl, rfl, ?_, rfl, ?_⟩);
       (refine ⟨_, (mkAppConfigTiles envWorker envProtomaps envOverture
          envGrid3).sources.overture, rfl,
          getTileSourceConfig_eq_ok hw rfl, rfl, ?_, rfl, ?_⟩);
       (refine ⟨_, (mkAppConfigTiles envWorker envProtomaps envOverture
          envGrid3).sources.grid3, rfl,
          getTileSourceConfig_eq_ok hw rfl, rfl, ?_, rfl, ?_⟩)] <;>
      first
        | (intro u hu
           rw [List.mem_singleton] at hu
           subst hu
           exact template_containsSub _ _)
        | (intro m hm
           simp only [mkAppConfigTiles] at hm ⊢
           rw [Option.some_inj] at hm
           subst hm
           rfl)
  · intro cfg name h
    exact ⟨"VITE_CLOUDFLARE_WORKER_URL must be set",
      by simp [getTileSourceConfig, h]⟩
  · intro cfg name h1 h2 h3
    by_cases hw : cfg.cloudflareWorkerUrl = ""
    · exact ⟨"VITE_CLOUDFLARE_WORKER_URL must be set",
        by simp [getTileSourceConfig, hw]⟩
    · refine ⟨"Source not found in configuration: " ++ name, ?_⟩
      unfold getTileSourceConfig lookupSource
      rw [if_neg hw, if_neg h1, if_neg h2, if_neg h3]

/-- Witness for C2: concrete evaluation with no environment overrides, for
the source name `"overture"`, for a config with an empty worker URL, and for
the unrecognized name `"basemap"`. -/
theorem getTileSourceConfig_complete_witness :
    (∃ r src,
      lookupSource (mkAppConfigTiles none none none none).sources "overture" =
        some src ∧
      getTileSourceConfig (mkAppConfigTiles none none none none) "overture" =
        Except.ok r ∧
      r.tiles = [(mkAppConfigTiles none none none none).cloudflareWorkerUrl
        ++ "/" ++ src.archiveName ++ "/{z}/{x}/{y}.mvt"] ∧
      (∀ u ∈ r.tiles, ContainsSub u "{z}" ∧ ContainsSub u "{x}" ∧
        ContainsSub u "{y}") ∧
      r.attribution = src.attribution ∧
      (∀ m, src.maxzoom = some m → r.maxzoom = some m)) ∧
    (∃ e, getTileSourceConfig ⟨"", (mkAppConfigTiles none none none none).sources⟩
      "grid3" = Except.error e) ∧
    (∃ e, getTileSourceConfig (mkAppConfigTiles none none none none) "basemap" =
      Except.error e) :=
  ⟨getTileSourceConfig_complete.1 none none none none "overture"
      (Or.inr (Or.inl rfl)),
    getTileSourceConfig_complete.2.1 _ "grid3" rfl,
    getTileSourceConfig_complete.2.2 _ "basemap" (by decide) (by decide)
      (by decide)⟩

/-! ### Endpoint selection of the legacy viewer (`2-viewer/src/js/config.js`) -/

/-- Serving endpoints the legacy viewer can resolve to. -/
inductive Endpoint where
  | cloudflare
  | caddy
  | local
deriving Repr, DecidableEq

/-- Hosting context detected by `TileConfig.detectEnvironment`. -/
structure HostEnv where
  isLocalhost : Bool
  isGitHubPages : Bool
  isCloudflarePages : Bool
deriving Repr, DecidableEq

/-- Outcome of the two availability probes, each modelled as a boolean:
`checkCloudflareAvailability` (3 s timeout) and `checkCaddyAvailability`
(2 s timeout); a timed-out or failed probe is `false`. -/
structure ProbeOutcome where
  cloudflareAvailable : Bool
  caddyAvailable : Bool
deriving Repr, DecidableEq

/-- Embedding of `TileConfig.selectBestEndpoint` in `2-viewer/src/js/config.js`:
explicit source modes are tried first (falling through to auto-detection on a
failed probe), then auto-detection prefers the edge worker off localhost, the
self-hosted server on localhost or on a pages host, and local files last. -/
def selectBestEndpoint (pmtilesSource : String) (cloudflareEnabled : Bool)
    (host : HostEnv) (probe : ProbeOutcome) : Endpoint :=
  if pmtilesSource = "cloudflare" ∧ cloudflareEnabled ∧ probe.cloudflareAvailable then
    Endpoint.cloudflare
  else if pmtilesSource = "caddy" ∧ probe.caddyAvailable then
    Endpoint.caddy
  else if pmtilesSource = "local" then
    Endpoint.local
  else if ¬host.isLocalhost ∧ cloudflareEnabled ∧ probe.cloudflareAvailable then
    Endpoint.cloudflare
  else if host.isLocalhost then
    (if probe.caddyAvailable then Endpoint.caddy else Endpoint.local)
  else if host.isGitHubPages ∨ host.isCloudflarePages then
    (if probe.caddyAvailable then Endpoint.caddy else Endpoint.local)
  else
    Endpoint.local

/-- C3: with source mode `"local"` the selection is `local` whatever the
probes would report; with source mode `"auto"`, off a local development host,
and a failed or timed-out edge-worker probe, the selection is never
`cloudflare` and falls to one of the remaining candidates of the priority
order (`caddy`, then `local`). -/
theorem selectBestEndpoint_fallback :
    (∀ (cloudflareEnabled : Bool) (host : HostEnv) (probe : ProbeOutcome),
      selectBestEndpoint "local" cloudflareEnabled host probe = Endpoint.local) ∧
    (∀ (cloudflareEnabled : Bool) (host : HostEnv) (probe : ProbeOutcome),
      host.isLocalhost = false → probe.cloudflareAvailable = false →
      selectBestEndpoint "auto" cloudflareEnabled host probe ≠
        Endpoint.cloudflare ∧
      (selectBestEndpoint "auto" cloudflareEnabled host probe = Endpoint.caddy ∨
        selectBestEndpoint "auto" cloudflareEnabled host probe =
          Endpoint.local)) := by
  constructor
  · intro cloudflareEnabled host probe
    rcases host with ⟨hl, hg, hc⟩
    rcases probe with ⟨ca, cd⟩
    cases cloudflareEnabled <;> cases hl <;> cases hg <;> cases hc <;>
      cases ca <;> cases cd <;> rfl
  · intro cloudflareEnabled host probe hloc hca
    rcases host with ⟨hl, hg, hc⟩
    rcases probe with ⟨ca, cd⟩
    cases hl
    · cases ca
      · cases cloudflareEnabled <;> cases hg <;> cases hc <;> cases cd <;>
          exact ⟨by decide, by decide⟩
      · simp at hca
    · simp at hloc

/-- Witness for C3: concrete evaluations in mode `"local"` with every probe
succeeding, and in mode `"auto"` on a GitHub-Pages host with the edge-worker
probe failed and the self-hosted probe succeeding. -/
theorem selectBestEndpoint_fallback_witness :
    selectBestEndpoint "local" true ⟨false, false, false⟩ ⟨true, true⟩ =
      Endpoint.local ∧
    (selectBestEndpoint "auto" true ⟨false, true, false⟩ ⟨false, true⟩ ≠
        Endpoint.cloudflare ∧
      (selectBestEndpoint "auto" true ⟨false, true, false⟩ ⟨false, true⟩ =
          Endpoint.caddy ∨
        selectBestEndpoint "auto" true ⟨false, true, false⟩ ⟨false, true⟩ =
          Endpoint.local)) :=
  ⟨selectBestEndpoint_fallback.1 true ⟨false, false, false⟩ ⟨true, true⟩,
    selectBestEndpoint_fallback.2 true ⟨false, true, false⟩ ⟨false, true⟩
      rfl rfl⟩

/-- Runtime state of the legacy `TileConfig` object that URL construction
reads: the resolved endpoint (null before `selectBestEndpoint` completes),
the worker URL, the self-hosted static path, and the local path (null unless
a recognized hosting context set it). -/
structure TileConfigState where
  currentEndpoint : Option Endpoint
  cloudflareUrl : String
  caddyPmtiles : String
  localPmtiles : Option String
deriving Repr, DecidableEq

/-- Replacement of the first occurrence of `pat` in `s` (JavaScript
`String.prototype.replace` with a string pattern). -/
def replaceFirst (s pat : String) : String :=
  match s.splitOn pat with
  | [] => s
  | [x] => x
  | x :: y :: rest => x ++ String.intercalate pat (y :: rest)

/-- Coercion a JavaScript template literal applies to a null value. -/
def jsStringOrNull : Option String → String
  | some s => s
  | none => "null"

/-- Embedding of `TileConfig.getPMTilesUrl`: throws when no endpoint is
selected, returns a direct worker URL for `cloudflare`, and a
`pmtiles://`-prefixed URL for `caddy` and `local`. -/
def getPMTilesUrl (st : TileConfigState) (tileName : String) :
    Except String String :=
  match st.currentEndpoint with
  | none => Except.error "Endpoint not selected. Call selectBestEndpoint() first."
  | some Endpoint.cloudflare =>
      Except.ok (st.cloudflareUrl ++ "/" ++ replaceFirst tileName ".pmtiles")
  | some e =>
      let endpoint := if e = Endpoint.caddy then st.caddyPmtiles
        else jsStringOrNull st.localPmtiles
      Except.ok ("pmtiles://" ++ endpoint ++ "/" ++ tileName)

/-- Embedding of `TileConfig.getPMTilesBaseUrl`: as `getPMTilesUrl` but
without the protocol prefix on the non-worker endpoints. -/
def getPMTilesBaseUrl (st : TileConfigState) (tileName : String) :
    Except String String :=
  match st.currentEndpoint with
  | none => Except.error "Endpoint not selected. Call selectBestEndpoint() first."
  | some Endpoint.cloudflare =>
      Except.ok (st.cloudflareUrl ++ "/" ++ replaceFirst tileName ".pmtiles")
  | some e =>
      let endpoint := if e = Endpoint.caddy then st.caddyPmtiles
        else jsStringOrNull st.localPmtiles
      Except.ok (endpoint ++ "/" ++ tileName)

/-- C10: while `currentEndpoint` is unresolved (null), both `getPMTilesUrl`
and `getPMTilesBaseUrl` throw for every tile-file name, so no tile URL is
ever constructed against an unresolved endpoint. -/
theorem getPMTilesUrl_requires_endpoint :
    ∀ (st : TileConfigState) (tileName : String),
      st.currentEndpoint = none →
      (∃ e, getPMTilesUrl st tileName = Except.error e) ∧
      (∃ e, getPMTilesBaseUrl st tileName = Except.error e) := by
  intro st tileName h
  unfold getPMTilesUrl getPMTilesBaseUrl
  rw [h]
  exact ⟨⟨_, rfl⟩, ⟨_, rfl⟩⟩

/-- Witness for C10 on a concrete unresolved configuration state. -/
theorem getPMTilesUrl_requires_endpoint_witness :
    (∃ e, getPMTilesUrl ⟨none, "https://w.example", "http://127.0.0.1:3002/static",
      none⟩ "buildings.pmtiles" = Except.error e) ∧
    (∃ e, getPMTilesBaseUrl ⟨none, "https://w.example", "http://127.0.0.1:3002/static",
      none⟩ "buildings.pmtiles" = Except.error e) :=
  getPMTilesUrl_requires_endpoint
    ⟨none, "https://w.example", "http://127.0.0.1:3002/static", none⟩
    "buildings.pmtiles" rfl

/-! ### Layer draw order and label priorities of the legacy viewer -/

/-- Style layer as the legacy viewer manipulates it: an id, a layer type, an
optional source reference, and the `symbol-sort-key` layout property. -/
structure StyleLayer where
  id : String
  type : String
  source : Option String
  sortKey : Option Int
deriving Repr, DecidableEq

/-- Transcription of `this.layerDrawOrder` in `2-viewer/src/js/config.js`
(lines 376-448). -/
def layerDrawOrder : List (String × Nat) :=
  [("background", 1), ("tile-grid", 999),
   ("land", 2), ("land-cover", 20),
   ("esri-admin0-forest", 21), ("esri-admin1-forest", 22),
   ("esri-openspace-forest", 23),
   ("settlement-extents-fill", 26), ("settlement-extents-outlines", 31),
   ("land-use", 30), ("land-residential", 15),
   ("hills", 35),
   ("water-lines-casing", 38), ("land-cover-wetlands-fill", 37),
   ("land-cover-wetlands-pattern", 37),
   ("water-lines", 39), ("water-polygons", 40), ("water-texture", 49),
   ("water-polygon-outlines", 41),
   ("contours", 32), ("contour-text", 51),
   ("roads-solid", 60), ("roads-dashed", 61), ("roads-solid-casing", 59),
   ("infrastructure-polygons", 70), ("infrastructure-lines", 71),
   ("infrastructure-points", 72),
   ("buildings-flat", 80), ("buildings-extrusion", 79),
   ("building-outlines", 83),
   ("health-areas", 84), ("health-zones", 86), ("health-zones-outline", 85),
   ("health-zones-casing", 83), ("health-areas-outline", 87),
   ("health-areas-casing", 84),
   ("places", 90), ("health-facilities", 91),
   ("health-areas-labels", 98), ("health-zones-labels", 99),
   ("place-labels", 100), ("health-facilities-labels", 101),
   ("settlement-names", 102), ("placenames", 103)]

/-- Draw-order key used by the sort comparator: the table's value when the
layer id is listed, and 999 otherwise
(`this.layerDrawOrder[id] !== undefined ? this.layerDrawOrder[id] : 999`). -/
def drawOrderOf (id : String) : Nat :=
  (layerDrawOrder.lookup id).getD 999

/-- Embedding of `OvertureMap.sortLayersByDrawOrder`: the layers array is
sorted by the comparator `orderA - orderB` (ascending draw-order key); the
ECMAScript sort is stable, modelled by a stable merge sort. -/
def sortLayersByDrawOrder (layers : List StyleLayer) : List StyleLayer :=
  layers.mergeSort (fun a b => drawOrderOf a.id ≤ drawOrderOf b.id)

theorem sortLayersByDrawOrder_pairwise (layers : List StyleLayer) :
    (sortLayersByDrawOrder layers).Pairwise
      (fun a b => drawOrderOf a.id ≤ drawOrderOf b.id) := by
  have h := @List.sorted_mergeSort StyleLayer
    (fun a b : StyleLayer => decide (drawOrderOf a.id ≤ drawOrderOf b.id))
    (fun a b c hab hbc => by
      simp only [decide_eq_true_eq] at hab hbc ⊢
      omega)
    (fun a b => by
      simp only [Bool.or_eq_true, decide_eq_true_eq]
      omega)
    layers
  have hconv : ∀ l : List StyleLayer,
      l.Pairwise (fun a b =>
        decide (drawOrderOf a.id ≤ drawOrderOf b.id) = true) →
      l.Pairwise (fun a b => drawOrderOf a.id ≤ drawOrderOf b.id) := by
    intro l hl
    exact hl.imp (fun h => by simpa using h)
  exact hconv _ (by simpa [sortLayersByDrawOrder] using h)

/-- C4: after `sortLayersByDrawOrder`, whenever the draw-order key of the
layer at position `i` is strictly below the key of the layer at position `j`,
position `i` comes first; a layer id absent from the draw-order table gets
key 999; and the output is a permutation of the input. -/
theorem sortLayersByDrawOrder_ordered :
    (∀ (layers : List StyleLayer) (i j : Nat)
      (hi : i < (sortLayersByDrawOrder layers).length)
      (hj : j < (sortLayersByDrawOrder layers).length),
      drawOrderOf ((sortLayersByDrawOrder layers)[i]).id <
        drawOrderOf ((sortLayersByDrawOrder layers)[j]).id → i < j) ∧
    (∀ id, layerDrawOrder.lookup id = none → drawOrderOf id = 999) ∧
    (∀ layers : List StyleLayer,
      (sortLayersByDrawOrder layers).Perm layers) := by
  refine ⟨?_, ?_, ?_⟩
  · intro layers i j hi hj hlt
    by_contra hij
    push_neg at hij
    rcases Nat.lt_or_ge j i with hji | hji
    · have hpair := (List.pairwise_iff_getElem.mp
        (sortLayersByDrawOrder_pairwise layers)) j i hj hi hji
      omega
    · have : i = j := by omega
      subst this
      omega
  · intro id h
    unfold drawOrderOf
    rw [h]
    rfl
  · intro layers
    exact List.mergeSort_perm layers _

unseal List.merge List.mergeSort

/-- Witness for C4: a concrete three-layer style; `background` (key 1) sorts
before `water-polygons` (key 40), and the unlisted id `my-custom-overlay`
gets key 999. -/
theorem sortLayersByDrawOrder_ordered_witness :
    (0 : Nat) < 1 ∧ drawOrderOf "my-custom-overlay" = 999 := by
  constructor
  · exact sortLayersByDrawOrder_ordered.1
      [⟨"water-polygons", "fill", some "base", none⟩,
       ⟨"my-custom-overlay", "line", some "base", none⟩,
       ⟨"background", "background", none, none⟩] 0 1
      (by decide) (by decide) (by decide)
  · exact sortLayersByDrawOrder_ordered.2.1 "my-custom-overlay" (by decide)

/-- Transcription of `this.labelPriority` in `2-viewer/src/js/config.js`
(lines 453-471), with the priority values written as the code writes them. -/
def labelPriority : List (String × Int) :=
  [("contour-text", 1000 - 51),
   ("health-areas-labels-interior", 1000 - 80),
   ("health-areas-labels-exterior", 1000 - 75),
   ("health-zones-labels-interior", 1000 - 90),
   ("health-zones-labels-exterior", 1000 - 85),
   ("place-labels", 1000 - 100),
   ("health-facilities-labels", 1000 - 101),
   ("settlement-names-labels", 1000 - 50)]

/-- Derived display z-order of a label priority, `1000 - priority`, as the
`applyLabelPriorities` debug table computes it. -/
def zOrder (p : Int) : Int := 1000 - p

/-- Lookup `map.getLayer(id)`: the style's layer with the given id. -/
def getLayer (style : List StyleLayer) (id : String) : Option StyleLayer :=
  style.find? (fun l => l.id == id)

/-- Application of `map.setLayoutProperty(id, 'symbol-sort-key', p)` to the
embedded style. -/
def setSymbolSortKey (style : List StyleLayer) (id : String) (p : Int) :
    List StyleLayer :=
  style.map (fun l => if l.id == id then { l with sortKey := some p } else l)

/-- Body of the loop of `applyLabelPriorities` for one priority-table entry:
the sort key is set only when a layer with that id exists and is of symbol
type. -/
def applyPrioritiesStep (style : List StyleLayer) (entry : String × Int) :
    List StyleLayer :=
  match getLayer style entry.1 with
  | some layer =>
      if layer.type == "symbol" then setSymbolSortKey style entry.1 entry.2
      else style
  | none => style

/-- Iteration of `applyLabelPriorities` over a priority table. -/
def applyPriorities (table : List (String × Int)) (style : List StyleLayer) :
    List StyleLayer :=
  table.foldl applyPrioritiesStep style

/-- Embedding of `OvertureMap.applyLabelPriorities`: every symbol layer
listed in `labelPriority` and present in the style gets its table value as
`symbol-sort-key`. -/
def applyLabelPriorities (style : List StyleLayer) : List StyleLayer :=
  applyPriorities labelPriority style

theorem getLayer_some_id {style : List StyleLayer} {id : String}
    {e : StyleLayer} (h : getLayer style id = some e) : e.id = id := by
  unfold getLayer at h
  have := List.find?_some h
  simpa using this

theorem getLayer_setSymbolSortKey (style : List StyleLayer) (id2 : String)
    (p : Int) (id : String) :
    getLayer (setSymbolSortKey style id2 p) id =
      (getLayer style id).map
        (fun l => if l.id == id2 then { l with sortKey := some p } else l) := by
  unfold getLayer setSymbolSortKey
  rw [List.find?_map]
  congr 2
  funext l
  by_cases h : l.id = id2 <;> simp [h]

theorem getLayer_setSymbolSortKey_ne {style : List StyleLayer} {id2 id : String}
    (p : Int) (h : id ≠ id2) :
    getLayer (setSymbolSortKey style id2 p) id = getLayer style id := by
  rw [getLayer_setSymbolSortKey]
  cases hf : getLayer style id with
  | none => rfl
  | some e =>
      have he : e.id = id := getLayer_some_id hf
      have hne : e.id ≠ id2 := by
        rw [he]
        exact h
      simp [hne]

theorem getLayer_setSymbolSortKey_self {style : List StyleLayer} {id : String}
    {e : StyleLayer} (p : Int) (h : getLayer style id = some e) :
    getLayer (setSymbolSortKey style id p) id =
      some { e with sortKey := some p } := by
  rw [getLayer_setSymbolSortKey, h]
  have he : e.id = id := getLayer_some_id h
  simp [he]

theorem applyPrioritiesStep_getLayer_ne (style : List StyleLayer)
    (entry : String × Int) (id : String) (h : id ≠ entry.1) :
    getLayer (applyPrioritiesStep style entry) id = getLayer style id := by
  unfold applyPrioritiesStep
  cases hg : getLayer style entry.1 with
  | none => rfl
  | some layer =>
      dsimp only
      by_cases ht : (layer.type == "symbol") = true
      · rw [if_pos ht]
        exact getLayer_setSymbolSortKey_ne entry.2 h
      · rw [if_neg ht]

theorem applyPriorities_cons (ent : String × Int) (rest : List (String × Int))
    (style : List StyleLayer) :
    applyPriorities (ent :: rest) style =
      applyPriorities rest (applyPrioritiesStep style ent) := rfl

theorem applyPriorities_getLayer_not_mem (table : List (String × Int))
    (style : List StyleLayer) (id : String)
    (h : id ∉ table.map Prod.fst) :
    getLayer (applyPriorities table style) id = getLayer style id := by
  induction table generalizing style with
  | nil => rfl
  | cons ent rest ih =>
      simp only [List.map_cons, List.mem_cons, not_or] at h
      rw [applyPriorities_cons, ih (applyPrioritiesStep style ent) h.2]
      exact applyPrioritiesStep_getLayer_ne style ent id h.1

theorem applyPriorities_getLayer_mem (table : List (String × Int))
    (style : List StyleLayer) (id : String) (p : Int) (e : StyleLayer)
    (hnd : (table.map Prod.fst).Nodup) (hmem : (id, p) ∈ table)
    (hl : getLayer style id = some e) (hty : e.type = "symbol") :
    getLayer (applyPriorities table style) id =
      some { e with sortKey := some p } := by
  induction table generalizing style e with
  | nil => cases hmem
  | cons ent rest ih =>
      simp only [List.map_cons, List.nodup_cons] at hnd
      rw [applyPriorities_cons]
      rcases List.mem_cons.mp hmem with heq | hmem2
      · subst heq
        have hstep : applyPrioritiesStep style (id, p) =
            setSymbolSortKey style id p := by
          unfold applyPrioritiesStep
          rw [hl]
          simp [hty]
        rw [hstep,
          applyPriorities_getLayer_not_mem rest (setSymbolSortKey style id p)
            id hnd.1]
        exact getLayer_setSymbolSortKey_self p hl
      · have hne : id ≠ ent.1 := by
          intro hcontra
          exact hnd.1 (hcontra ▸ (List.mem_map.mpr ⟨(id, p), hmem2, rfl⟩))
        refine ih (applyPrioritiesStep style ent) e hnd.2 hmem2 ?_ hty
        rw [applyPrioritiesStep_getLayer_ne style ent id hne]
        exact hl

/-- C5: for any two entries of the label-priority table with values
`p1 < p2`, the derived z-order `1000 - p1` exceeds `1000 - p2`, and after
`applyLabelPriorities` every style in which both layers exist as symbol
layers carries `symbol-sort-key` `p1` on the first and `p2` on the second,
so the first's sort key is numerically below the second's. -/
theorem labelPriority_inversion :
    ∀ id1 p1 id2 p2, (id1, p1) ∈ labelPriority → (id2, p2) ∈ labelPriority →
      p1 < p2 →
      zOrder p1 > zOrder p2 ∧
      (∀ (style : List StyleLayer) (l1 l2 : StyleLayer),
        getLayer style id1 = some l1 → l1.type = "symbol" →
        getLayer style id2 = some l2 → l2.type = "symbol" →
        getLayer (applyLabelPriorities style) id1 =
          some { l1 with sortKey := some p1 } ∧
        getLayer (applyLabelPriorities style) id2 =
          some { l2 with sortKey := some p2 }) := by
  intro id1 p1 id2 p2 h1 h2 hlt
  constructor
  · unfold zOrder
    omega
  · intro style l1 l2 hl1 hty1 hl2 hty2
    have hnd : (labelPriority.map Prod.fst).Nodup := by decide
    exact ⟨applyPriorities_getLayer_mem labelPriority style id1 p1 l1 hnd h1
        hl1 hty1,
      applyPriorities_getLayer_mem labelPriority style id2 p2 l2 hnd h2
        hl2 hty2⟩

/-- Witness for C5 on the table entries `health-facilities-labels` (priority
899) and `place-labels` (priority 900) and a concrete two-layer symbol
style. -/
theorem labelPriority_inversion_witness :
    zOrder 899 > zOrder 900 ∧
    (getLayer (applyLabelPriorities
        [⟨"health-facilities-labels", "symbol", none, none⟩,
         ⟨"place-labels", "symbol", none, none⟩]) "health-facilities-labels" =
      some ⟨"health-facilities-labels", "symbol", none, some 899⟩ ∧
    getLayer (applyLabelPriorities
        [⟨"health-facilities-labels", "symbol", none, none⟩,
         ⟨"place-labels", "symbol", none, none⟩]) "place-labels" =
      some ⟨"place-labels", "symbol", none, some 900⟩) := by
  have h := labelPriority_inversion "health-facilities-labels" 899
    "place-labels" 900 (by decide) (by decide) (by decide)
  exact ⟨h.1, h.2
    [⟨"health-facilities-labels", "symbol", none, none⟩,
     ⟨"place-labels", "symbol", none, none⟩]
    ⟨"health-facilities-labels", "symbol", none, none⟩
    ⟨"place-labels", "symbol", none, none⟩ rfl rfl rfl rfl⟩

/-! ### Source availability filtering of the legacy viewer -/

/-- Style source as `filterAvailableSources` inspects it: only the `url`
field is consulted (`source.url && source.url.includes('pmtiles://')`). -/
structure MapSource where
  url : Option String
deriving Repr, DecidableEq

/-- Occurrence of `pat` as a contiguous run of `l`. -/
def hasInfix (pat : List Char) : List Char → Bool
  | [] => pat.isPrefixOf []
  | c :: t => pat.isPrefixOf (c :: t) || hasInfix pat t

/-- JavaScript `String.prototype.includes`: substring occurrence. -/
def jsIncludes (s pat : String) : Bool :=
  hasInfix pat.data s.data

/-- Check whether a style source is an archive-protocol source:
its url exists and contains `pmtiles://`. -/
def isPmtilesSource (s : MapSource) : Bool :=
  match s.url with
  | some u => jsIncludes u "pmtiles://"
  | none => false

/-- Set of source ids `filterAvailableSources` keeps: non-archive-protocol
sources unconditionally, archive-protocol sources when their reachability
probe (`checkPMTilesExists`, given here as the boolean outcome `avail` per
source id) succeeded. -/
def availableSourceIds (avail : String → Bool)
    (sources : List (String × MapSource)) : List String :=
  sources.filterMap (fun p =>
    if isPmtilesSource p.2 then (if avail p.1 then some p.1 else none)
    else some p.1)

/-- Embedding of `OvertureMap.filterAvailableSources`: drops every source
outside the available set and every layer whose `source` field references a
source outside the available set. -/
def filterAvailableSources (avail : String → Bool)
    (sources : List (String × MapSource)) (layers : List StyleLayer) :
    List (String × MapSource) × List StyleLayer :=
  let ids := availableSourceIds avail sources
  (sources.filter (fun p => ids.contains p.1),
   layers.filter (fun l =>
     match l.source with
     | some s => ids.contains s
     | none => true))

theorem key_unique {α β : Type} {l : List (α × β)}
    (hnd : (l.map Prod.fst).Nodup) {k : α} {v1 v2 : β}
    (h1 : (k, v1) ∈ l) (h2 : (k, v2) ∈ l) : v1 = v2 := by
  induction l with
  | nil => cases h1
  | cons p t ih =>
      simp only [List.map_cons, List.nodup_cons] at hnd
      rcases List.mem_cons.mp h1 with he1 | ht1 <;>
        rcases List.mem_cons.mp h2 with he2 | ht2
      · have heq := he1.trans he2.symm
        exact (Prod.mk.injEq _ _ _ _ ▸ heq).2
      · have hk : k ∈ List.map Prod.fst t := List.mem_map.mpr ⟨(k, v2), ht2, rfl⟩
        rw [← he1] at hnd
        exact absurd hk hnd.1
      · have hk : k ∈ List.map Prod.fst t := List.mem_map.mpr ⟨(k, v1), ht1, rfl⟩
        rw [← he2] at hnd
        exact absurd hk hnd.1
      · exact ih hnd.2 ht1 ht2

theorem mem_availableSourceIds_iff {avail : String → Bool}
    {sources : List (String × MapSource)} {u : String} {su : MapSource}
    (hnd : (sources.map Prod.fst).Nodup)
    (hu : (u, su) ∈ sources) (hupm : isPmtilesSource su = true)
    (huav : avail u = false)
    (hothers : ∀ p ∈ sources, p.1 ≠ u → isPmtilesSource p.2 = true →
      avail p.1 = true) :
    ∀ id, id ∈ availableSourceIds avail sources ↔
      (id ∈ sources.map Prod.fst ∧ id ≠ u) := by
  intro id
  unfold availableSourceIds
  rw [List.mem_filterMap]
  constructor
  · rintro ⟨p, hp, hf⟩
    by_cases hpm : isPmtilesSource p.2 = true
    · rw [if_pos hpm] at hf
      by_cases hav : avail p.1 = true
      · rw [if_pos hav, Option.some_inj] at hf
        subst hf
        refine ⟨List.mem_map.mpr ⟨p, hp, rfl⟩, ?_⟩
        intro hcontra
        rw [hcontra] at hav
        rw [huav] at hav
        cases hav
      · rw [if_neg hav] at hf
        cases hf
    · rw [if_neg hpm, Option.some_inj] at hf
      subst hf
      refine ⟨List.mem_map.mpr ⟨p, hp, rfl⟩, ?_⟩
      intro hcontra
      have hp2 : p = (p.1, p.2) := rfl
      rw [hp2, hcontra] at hp
      have := key_unique hnd hp hu
      rw [this] at hpm
      exact hpm hupm
  · rintro ⟨hmem, hne⟩
    rcases List.mem_map.mp hmem with ⟨p, hp, hpid⟩
    refine ⟨p, hp, ?_⟩
    by_cases hpm : isPmtilesSource p.2 = true
    · rw [if_pos hpm, if_pos (hothers p hp (hpid ▸ hne) hpm), hpid]
    · rw [if_neg hpm, hpid]

/-- C6: when the reachability outcome reports exactly one archive-protocol
source unreachable, `filterAvailableSources` removes exactly that source and
exactly the layers referencing it, keeping every other source (including
every non-archive-protocol source) and every other layer of a style whose
layers reference declared sources. -/
theorem filterAvailableSources_single_unreachable :
    ∀ (avail : String → Bool) (sources : List (String × MapSource))
      (layers : List StyleLayer) (u : String) (su : MapSource),
      (sources.map Prod.fst).Nodup →
      (u, su) ∈ sources → isPmtilesSource su = true → avail u = false →
      (∀ p ∈ sources, p.1 ≠ u → isPmtilesSource p.2 = true →
        avail p.1 = true) →
      (∀ l ∈ layers, ∀ s, l.source = some s → s ∈ sources.map Prod.fst) →
      (filterAvailableSources avail sources layers).1 =
        sources.filter (fun p => p.1 != u) ∧
      (filterAvailableSources avail sources layers).2 =
        layers.filter (fun l => l.source != some u) := by
  intro avail sources layers u su hnd hu hupm huav hothers hlayers
  have hiff := mem_availableSourceIds_iff hnd hu hupm huav hothers
  constructor
  · apply List.filter_congr
    intro p hp
    have hmem : p.1 ∈ sources.map Prod.fst := List.mem_map.mpr ⟨p, hp, rfl⟩
    rw [Bool.eq_iff_iff]
    simp only [List.contains, List.elem_iff, bne_iff_ne]
    rw [hiff p.1]
    exact ⟨fun h => h.2, fun h => ⟨hmem, h⟩⟩
  · apply List.filter_congr
    intro l hl
    cases hs : l.source with
    | none => rfl
    | some s =>
        have hmem : s ∈ sources.map Prod.fst := hlayers l hl s hs
        dsimp only
        rw [Bool.eq_iff_iff]
        simp only [List.contains, List.elem_iff, bne_iff_ne, ne_eq,
          Option.some.injEq]
        rw [hiff s]
        exact ⟨fun h hc => h.2 hc, fun h => ⟨hmem, h⟩⟩

/-- Witness for C6: three sources of which the archive-protocol source
`grid3` is the one reported unreachable; the `grid3-fill` layer is dropped
with it while the other sources and layers survive. -/
theorem filterAvailableSources_single_unreachable_witness :
    (filterAvailableSources (fun id => !(id == "grid3"))
        [("protomaps", ⟨some "pmtiles://tiles/global.pmtiles"⟩),
         ("grid3", ⟨some "pmtiles://tiles/grid3.pmtiles"⟩),
         ("esri", ⟨none⟩)]
        [⟨"background", "background", none, none⟩,
         ⟨"water", "fill", some "protomaps", none⟩,
         ⟨"grid3-fill", "fill", some "grid3", none⟩,
         ⟨"esri-forest", "fill", some "esri", none⟩]).1 =
      List.filter (fun p => p.1 != "grid3")
        [("protomaps", ⟨some "pmtiles://tiles/global.pmtiles"⟩),
         ("grid3", ⟨some "pmtiles://tiles/grid3.pmtiles"⟩),
         ("esri", ⟨none⟩)] ∧
    (filterAvailableSources (fun id => !(id == "grid3"))
        [("protomaps", ⟨some "pmtiles://tiles/global.pmtiles"⟩),
         ("grid3", ⟨some "pmtiles://tiles/grid3.pmtiles"⟩),
         ("esri", ⟨none⟩)]
        [⟨"background", "background", none, none⟩,
         ⟨"water", "fill", some "protomaps", none⟩,
         ⟨"grid3-fill", "fill", some "grid3", none⟩,
         ⟨"esri-forest", "fill", some "esri", none⟩]).2 =
      List.filter (fun l => l.source != some "grid3")
        [⟨"background", "background", none, none⟩,
         ⟨"water", "fill", some "protomaps", none⟩,
         ⟨"grid3-fill", "fill", some "grid3", none⟩,
         ⟨"esri-forest", "fill", some "esri", none⟩] :=
  filterAvailableSources_single_unreachable
    (fun id => !(id == "grid3"))
    [("protomaps", ⟨some "pmtiles://tiles/global.pmtiles"⟩),
     ("grid3", ⟨some "pmtiles://tiles/grid3.pmtiles"⟩),
     ("esri", ⟨none⟩)]
    [⟨"background", "background", none, none⟩,
     ⟨"water", "fill", some "protomaps", none⟩,
     ⟨"grid3-fill", "fill", some "grid3", none⟩,
     ⟨"esri-forest", "fill", some "esri", none⟩]
    "grid3" ⟨some "pmtiles://tiles/grid3.pmtiles"⟩
    (by decide) (by decide) (by decide) (by decide) (by decide) (by decide)

/-! ### Cleanup of the legacy viewer (`OvertureMap.destroy`) -/

/-- Runtime state `destroy` touches: whether a map instance exists and
whether the archive-protocol handler is registered. -/
structure OvertureMapState where
  mapInstance : Option Unit
  protocolRegistered : Bool
deriving Repr, DecidableEq

/-- Embedding of `OvertureMap.destroy` as written: the guard is
`if (!this.map) { this.map.remove(); }`, so `remove()` is attempted only
when `this.map` is null (a null dereference, modelled as an error) and is
skipped when a map exists; the protocol handler is then deregistered when
present. -/
def destroy (st : OvertureMapState) : Except String OvertureMapState :=
  match st.mapInstance with
  | none => Except.error "TypeError: this.map is null"
  | some m =>
      Except.ok
        { mapInstance := some m
          protocolRegistered := false }

/-- C7 (divergence witness): on a state holding a live map instance,
`destroy` returns successfully with the map instance still present (only the
protocol handler is deregistered), and on a state with no map instance it
faults; the claimed postcondition "no map instance remains" fails. -/
theorem destroy_keeps_map_instance :
    destroy ⟨some (), true⟩ = Except.ok ⟨some (), false⟩ ∧
    (⟨some (), false⟩ : OvertureMapState).mapInstance = some () ∧
    destroy ⟨none, true⟩ = Except.error "TypeError: this.map is null" :=
  ⟨rfl, rfl, rfl⟩

/-! ### Terrain download/extract script (`download-terrain.sh`) -/

/-- Commands of `download-terrain.sh`, in script order. -/
inductive TerrainCmd where
  | aria2cDownload
  | pmtilesExtract
deriving Repr, DecidableEq

/-- POSIX shell command-sequence semantics, parameterized by whether errexit
(`set -e`) is active: with errexit, execution stops at the first failing
command; without it, every command runs and the script's exit status is the
last command's.  Returns the list of commands that ran and the exit
status. -/
def runSeq (errexit : Bool) (exits : TerrainCmd → Nat) :
    List TerrainCmd → List TerrainCmd × Nat
  | [] => ([], 0)
  | c :: rest =>
      let e := exits c
      if errexit ∧ e ≠ 0 then ([c], e)
      else
        match runSeq errexit exits rest with
        | ([], _) => ([c], e)
        | (ran, code) => (c :: ran, code)

/-- Embedding of `download-terrain.sh`: a `#!/bin/sh` script with no
`set -e` and no exit-status checks, running the `aria2c` download and then
the `pmtiles extract` clip. -/
def downloadTerrainScript (exits : TerrainCmd → Nat) : List TerrainCmd × Nat :=
  runSeq false exits [TerrainCmd.aria2cDownload, TerrainCmd.pmtilesExtract]

/-- C8 counterexample: when the download fails (exit 1) and the extract
succeeds, the extract still runs after the failed download and the script
even terminates with exit status 0 — the script does not abort before the
clip/extract step. -/
theorem downloadTerrain_no_failfast :
    (downloadTerrainScript (fun c =>
        match c with
        | TerrainCmd.aria2cDownload => 1
        | TerrainCmd.pmtilesExtract => 0)).1 =
      [TerrainCmd.aria2cDownload, TerrainCmd.pmtilesExtract] ∧
    (downloadTerrainScript (fun c =>
        match c with
        | TerrainCmd.aria2cDownload => 1
        | TerrainCmd.pmtilesExtract => 0)).2 = 0 := by
  exact ⟨rfl, rfl⟩

/-- C8 as amended: without `set -e`, both commands of the script always run
in order whatever their exit statuses, and the script's exit status is that
of the final `pmtiles extract` step — so a failed extract does yield a
non-zero exit, but a failed download neither prevents the extract from
running nor by itself makes the script fail. -/
theorem downloadTerrain_behavior :
    ∀ exits : TerrainCmd → Nat,
      (downloadTerrainScript exits).1 =
        [TerrainCmd.aria2cDownload, TerrainCmd.pmtilesExtract] ∧
      (downloadTerrainScript exits).2 = exits TerrainCmd.pmtilesExtract := by
  intro exits
  simp [downloadTerrainScript, runSeq]

/-! ### Merge wrapper script (`merge-grid3.sh`) -/

/-- Outcome of one run of the merge wrapper: whether the Python merge tool
was invoked, the script's exit status, and the printed file listing. -/
structure MergeRunResult where
  invokedMerge : Bool
  exitCode : Nat
  listed : List String
deriving Repr, DecidableEq

/-- Match of the `*.pmtiles` glob used by both `find` commands: the name
ends with `.pmtiles`. -/
def matchesPmtilesGlob (f : String) : Bool :=
  ".pmtiles".data.isSuffixOf f.data

/-- Embedding of `merge-grid3.sh` over the flat listing of the input
directory: the count guard counts every `*.pmtiles` file (without excluding
the output name `grid3.pmtiles`); only the subsequent cosmetic listing
excludes the output name; the merge tool's exit status decides the script's
exit. -/
def mergeGrid3Script (dirExists : Bool) (files : List String)
    (mergeExit : Nat) : MergeRunResult :=
  if !dirExists then ⟨false, 1, []⟩
  else
    let pmtilesCount := (files.filter matchesPmtilesGlob).length
    if pmtilesCount = 0 then ⟨false, 1, []⟩
    else
      let listing := ((files.filter (fun f =>
        matchesPmtilesGlob f && f != "grid3.pmtiles")).mergeSort
          (fun a b => a ≤ b))
      if mergeExit = 0 then ⟨true, 0, listing⟩ else ⟨true, 1, listing⟩

/-- C9 counterexample: with the input directory containing only a file named
identically to the output (`grid3.pmtiles`), the count guard sees one file,
so the script invokes the merge and exits 0 instead of exiting non-zero
without invoking the merge. -/
theorem mergeGrid3_counts_output_file :
    (mergeGrid3Script true ["grid3.pmtiles"] 0).invokedMerge = true ∧
    (mergeGrid3Script true ["grid3.pmtiles"] 0).exitCode = 0 ∧
    (mergeGrid3Script true ["grid3.pmtiles"] 0).listed = [] := by
  refine ⟨?_, ?_, ?_⟩ <;> decide

/-- C9 as amended: the zero-file guard counts every `*.pmtiles` file in the
directory without excluding the output filename; the script exits non-zero
without invoking the merge exactly when that unexcluded count is zero, and
otherwise invokes the merge (with a listing that does exclude the output
name) even when the only file present is named like the output. -/
theorem mergeGrid3_guard_behavior :
    ∀ (files : List String) (mergeExit : Nat),
      ((files.filter matchesPmtilesGlob).length = 0 →
        mergeGrid3Script true files mergeExit =
          ⟨false, 1, []⟩) ∧
      ((files.filter matchesPmtilesGlob).length ≠ 0 →
        (mergeGrid3Script true files mergeExit).invokedMerge = true) ∧
      mergeGrid3Script false files mergeExit = ⟨false, 1, []⟩ := by
  intro files mergeExit
  refine ⟨?_, ?_, rfl⟩
  · intro h
    unfold mergeGrid3Script
    rw [if_neg (by simp), if_pos h]
  · intro h
    unfold mergeGrid3Script
    rw [if_neg (by simp), if_neg h]
    by_cases hm : mergeExit = 0
    · rw [if_pos hm]
    · rw [if_neg hm]

/-- Witness for the amended C9: an empty directory yields exit 1 with no
merge; a directory holding only `grid3.pmtiles` still invokes the merge. -/
theorem mergeGrid3_guard_behavior_witness :
    mergeGrid3Script true ["readme.txt"] 0 = ⟨false, 1, []⟩ ∧
    (mergeGrid3Script true ["grid3.pmtiles"] 0).invokedMerge = true :=
  ⟨(mergeGrid3_guard_behavior ["readme.txt"] 0).1 (by decide),
    (mergeGrid3_guard_behavior ["grid3.pmtiles"] 0).2.1 (by decide)⟩

end MapTiles
